import Mathlib

/-!
Verification of the IoT sensor ingestion pipeline (cerebrourbano).

Shallow embedding of `sensor_config.py`, `sensor_processor.py` and
`iot_manager.py`.  JSON payloads are modelled as records of `Option`
fields (`none` = key absent from the JSON object); numeric values are
rationals.  Python dicts used as ordered key/value maps become
association lists preserving insertion order.
-/

/-- Ordered-dict lookup: first binding of key `k`, as Python `d[k]` / `d.get(k)`. -/
def lookupKey {β : Type} (k : String) : List (String × β) → Option β
  | [] => none
  | (k', v) :: rest => if k = k' then some v else lookupKey k rest

/-- Ordered-dict assignment `d[k] = v`: updates in place, appends at the end
when the key is new (Python 3.7+ insertion-order semantics). -/
def setKey {β : Type} (k : String) (v : β) : List (String × β) → List (String × β)
  | [] => [(k, v)]
  | (k', v') :: rest => if k = k' then (k, v) :: rest else (k', v') :: setKey k v rest

/-- Coordinates sub-object of a payload: lat and lon, each possibly absent. -/
structure Coords where
  lat : Option ℚ
  lon : Option ℚ
  deriving DecidableEq

/-- Location sub-object of a payload: zone and coordinates, each possibly absent. -/
structure Location where
  zone : Option String
  coordinates : Option Coords
  deriving DecidableEq

/-- A decoded JSON sensor payload.  Each field is `none` when the key is
absent from the JSON object.  `value` is modelled as a rational (the
source calls `float(data["value"])`; non-numeric values are out of scope
of the claims and not representable here). -/
structure Payload where
  value : Option ℚ
  unit : Option String
  timestamp : Option String
  sensor_id : Option String
  sensor_type : Option String
  location : Option Location
  status : Option String
  battery : Option Int
  deriving DecidableEq

/-- Python `field in data` for the payload object keys used by the sources. -/
def hasField (data : Payload) : String → Bool
  | "value" => data.value.isSome
  | "unit" => data.unit.isSome
  | "timestamp" => data.timestamp.isSome
  | "sensor_id" => data.sensor_id.isSome
  | "sensor_type" => data.sensor_type.isSome
  | "location" => data.location.isSome
  | "status" => data.status.isSome
  | "battery" => data.battery.isSome
  | _ => false

/-- Python `field in location` for the location object keys. -/
def hasLocationField (loc : Location) : String → Bool
  | "zone" => loc.zone.isSome
  | "coordinates" => loc.coordinates.isSome
  | _ => false

/-- One entry of `SENSOR_TYPES` in `sensor_config.py`: unit string, valid
range, and the ordered threshold bands `(label, (min, max))`. -/
structure SensorTypeDef where
  units : String
  valid_range : ℚ × ℚ
  thresholds : List (String × ℚ × ℚ)
  deriving DecidableEq

/-- Table `SENSOR_TYPES` of `sensor_config.py`, in source order. -/
def SENSOR_TYPES : List (String × SensorTypeDef) :=
  [ ("air_quality",
      { units := "AQI", valid_range := (0, 500),
        thresholds := [("good", 0, 50), ("moderate", 51, 100),
          ("unhealthy_sensitive", 101, 150), ("unhealthy", 151, 200),
          ("very_unhealthy", 201, 300), ("hazardous", 301, 500)] }),
    ("temperature",
      { units := "°C", valid_range := (-50, 100),
        thresholds := [("very_cold", -50, 0), ("cold", 0, 15),
          ("moderate", 15, 25), ("warm", 25, 35), ("hot", 35, 100)] }),
    ("humidity",
      { units := "%", valid_range := (0, 100),
        thresholds := [("very_dry", 0, 20), ("dry", 20, 40),
          ("moderate", 40, 60), ("humid", 60, 80), ("very_humid", 80, 100)] }),
    ("noise",
      { units := "dB", valid_range := (0, 200),
        thresholds := [("quiet", 0, 30), ("moderate", 30, 60),
          ("loud", 60, 90), ("very_loud", 90, 120), ("dangerous", 120, 200)] }),
    ("traffic",
      { units := "%", valid_range := (0, 100),
        thresholds := [("light", 0, 20), ("moderate", 20, 40),
          ("heavy", 40, 70), ("congested", 70, 90), ("gridlock", 90, 100)] }),
    ("flood",
      { units := "mm", valid_range := (0, 1000),
        thresholds := [("normal", 0, 30), ("attention", 31, 50),
          ("alert", 51, 100), ("danger", 101, 200), ("critical", 201, 1000)] }),
    ("accidents",
      { units := "ocorrências/dia", valid_range := (0, 100),
        thresholds := [("baixo", 0, 5), ("moderado", 6, 15),
          ("alto", 16, 30), ("critico", 31, 100)] }),
    ("crime_rate",
      { units := "ocorrências/dia", valid_range := (0, 1000),
        thresholds := [("baixo", 0, 10), ("moderado", 11, 30),
          ("alto", 31, 50), ("critico", 51, 1000)] }),
    ("energy_consumption",
      { units := "MW", valid_range := (0, 1000),
        thresholds := [("baixo", 0, 100), ("normal", 101, 300),
          ("alto", 301, 600), ("critico", 601, 1000)] }),
    ("waste_collection",
      { units := "ton/dia", valid_range := (0, 1000),
        thresholds := [("baixo", 0, 50), ("normal", 51, 200),
          ("alto", 201, 500), ("critico", 501, 1000)] }),
    ("smart_camera",
      { units := "status", valid_range := (0, 1),
        thresholds := [("offline", 0, 0), ("online", 1, 1)] }),
    ("drone",
      { units := "status", valid_range := (0, 1),
        thresholds := [("grounded", 0, 0), ("patrolling", 1, 1)] }) ]

/-- One entry of `ZONES` in `sensor_config.py`: center coordinates and the
zone's sensor-type list. -/
structure ZoneDef where
  lat : ℚ
  lon : ℚ
  sensor_types : List String
  deriving DecidableEq

/-- Table `ZONES` of `sensor_config.py`, in source order. -/
def ZONES : List (String × ZoneDef) :=
  [ ("Centro",
      { lat := mkRat (-5188004) 1000000, lon := mkRat (-37344033) 1000000,
        sensor_types := ["air_quality", "traffic", "noise", "temperature",
          "humidity", "flood", "smart_camera", "drone"] }),
    ("Zona Norte",
      { lat := mkRat (-5183612) 1000000, lon := mkRat (-37341157) 1000000,
        sensor_types := ["air_quality", "traffic", "temperature", "humidity",
          "flood", "smart_camera", "drone"] }),
    ("Zona Sul",
      { lat := mkRat (-5194283) 1000000, lon := mkRat (-37345749) 1000000,
        sensor_types := ["air_quality", "traffic", "temperature", "humidity",
          "flood", "smart_camera"] }),
    ("Zona Leste",
      { lat := mkRat (-5190128) 1000000, lon := mkRat (-37337275) 1000000,
        sensor_types := ["air_quality", "traffic", "noise", "temperature",
          "humidity", "flood", "smart_camera"] }),
    ("Zona Oeste",
      { lat := mkRat (-5186821) 1000000, lon := mkRat (-37350836) 1000000,
        sensor_types := ["air_quality", "traffic", "temperature", "humidity",
          "flood", "smart_camera"] }) ]

/-- Shape of `VALIDATION_RULES` in `sensor_config.py` (the timestamp format string
`%Y-%m-%dT%H:%M:%S.%f` is baked into `timestampOk` below). -/
structure ValidationRules where
  required_fields : List String
  location_fields : List String
  lat_range : ℚ × ℚ
  lon_range : ℚ × ℚ

/-- The concrete `VALIDATION_RULES` value. -/
def VALIDATION_RULES : ValidationRules :=
  { required_fields := ["value", "unit", "timestamp", "sensor_id", "location"],
    location_fields := ["zone", "coordinates"],
    lat_range := (mkRat (-52) 10, mkRat (-51) 10),
    lon_range := (mkRat (-374) 10, mkRat (-373) 10) }

/-- Numeric value of a list of ASCII digit characters. -/
def digitsToNat (cs : List Char) : Nat :=
  cs.foldl (fun acc c => acc * 10 + (c.toNat - 48)) 0

/-- Models `datetime.strptime(s, "%Y-%m-%dT%H:%M:%S.%f")` succeeding:
four year digits, dashed month and day, a literal T, colon-separated
hour/minute/second, a dot and one to six fraction digits, with the
calendar fields in range (day-of-month is bounded by 31 uniformly; the
claims under verification do not depend on per-month day counts). -/
def timestampOk (s : String) : Bool :=
  match s.toList with
  | y1 :: y2 :: y3 :: y4 :: s1 :: mo1 :: mo2 :: s2 :: d1 :: d2 :: t ::
      hh1 :: hh2 :: c1 :: mi1 :: mi2 :: c2 :: ss1 :: ss2 :: dot :: frac =>
    ([y1, y2, y3, y4, mo1, mo2, d1, d2, hh1, hh2, mi1, mi2, ss1, ss2].all Char.isDigit) &&
    (s1 == '-') && (s2 == '-') && (t == 'T') && (c1 == ':') && (c2 == ':') && (dot == '.') &&
    frac.all Char.isDigit && decide (1 ≤ frac.length) && decide (frac.length ≤ 6) &&
    (let mo := digitsToNat [mo1, mo2]
     let d := digitsToNat [d1, d2]
     let hh := digitsToNat [hh1, hh2]
     let mi := digitsToNat [mi1, mi2]
     let ss := digitsToNat [ss1, ss2]
     decide (1 ≤ mo ∧ mo ≤ 12 ∧ 1 ≤ d ∧ d ≤ 31 ∧ hh ≤ 23 ∧ mi ≤ 59 ∧ ss ≤ 59))
  | _ => false

namespace SensorDataProcessor

/-- Translation of `SensorDataProcessor.validate_sensor_data`
(`sensor_processor.py` lines 10-68).  Returns the Python pair
`(is_valid, error_message)`.  Branches marked unreachable correspond to
`KeyError` paths that cannot fire after the required-fields loop has
passed; they land in the catch-all handler of the source. -/
def validate_sensor_data (data : Payload) : Bool × Option String :=
  match VALIDATION_RULES.required_fields.find? (fun f => !hasField data f) with
  | some f => (false, some ("Campo obrigatório ausente: " ++ f))
  | none =>
    match data.sensor_type with
    | none => (false, some "Tipo de sensor inválido: None")
    | some st =>
      match lookupKey st SENSOR_TYPES with
      | none => (false, some ("Tipo de sensor inválido: " ++ st))
      | some sdef =>
        match data.value with
        | none => (false, some "Erro de validação: value")
        | some v =>
          if ¬(sdef.valid_range.1 ≤ v ∧ v ≤ sdef.valid_range.2) then
            (false, some "Valor fora do range válido")
          else
            match data.timestamp with
            | none => (false, some "Erro de validação: timestamp")
            | some ts =>
              if ¬timestampOk ts then (false, some "Formato de timestamp inválido")
              else
                let location := data.location.getD ⟨none, none⟩
                if ¬(VALIDATION_RULES.location_fields.all (hasLocationField location)) then
                  (false, some "Formato de localização inválido")
                else
                  let coords := location.coordinates.getD ⟨none, none⟩
                  match coords.lat, coords.lon with
                  | some lat, some lon =>
                    if ¬(VALIDATION_RULES.lat_range.1 ≤ lat ∧ lat ≤ VALIDATION_RULES.lat_range.2 ∧
                         VALIDATION_RULES.lon_range.1 ≤ lon ∧ lon ≤ VALIDATION_RULES.lon_range.2) then
                      (false, some "Coordenadas fora do range válido para Mossoró")
                    else
                      match location.zone with
                      | none => (false, some "Erro de validação: zone")
                      | some z =>
                        if (lookupKey z ZONES).isNone then
                          (false, some ("Zona inválida: " ++ z))
                        else (true, none)
                  | _, _ => (false, some "Coordenadas inválidas")

/-- A processed reading: the payload fields spread by `**data`, plus the
keys added by `process_sensor_data`; the `unit` key is overwritten with
the Catalog unit string. -/
structure ProcessedReading where
  value : Option ℚ
  unit : String
  timestamp : Option String
  sensor_id : Option String
  sensor_type : Option String
  location : Option Location
  status : Option String
  battery : Option Int
  processed_timestamp : String
  status_category : String
  trend : String
  deriving DecidableEq

/-- Result of `process_sensor_data`: the enriched dict, or — on the
exception path of the source — the input `data` returned unchanged. -/
inductive ProcessOutput where
  | enriched (r : ProcessedReading)
  | fallback (p : Payload)
  deriving DecidableEq

/-- Translation of `SensorDataProcessor.process_sensor_data`
(`sensor_processor.py` lines 71-103).  `now` stands for
`datetime.now().isoformat()`.  Missing `sensor_type`/`value` keys or an
unknown sensor type raise in the source and return `data` unchanged. -/
def process_sensor_data (data : Payload) (now : String) : ProcessOutput :=
  match data.sensor_type, data.value with
  | some st, some v =>
    match lookupKey st SENSOR_TYPES with
    | none => .fallback data
    | some sdef =>
      let category :=
        ((sdef.thresholds.find? (fun b => decide (b.2.1 ≤ v ∧ v ≤ b.2.2))).map Prod.fst).getD
          "unknown"
      .enriched
        { value := data.value, unit := sdef.units, timestamp := data.timestamp,
          sensor_id := data.sensor_id, sensor_type := data.sensor_type,
          location := data.location, status := data.status, battery := data.battery,
          processed_timestamp := now, status_category := category, trend := "stable" }
  | _, _ => .fallback data

end SensorDataProcessor

/-- A registered subscriber: invoking it either returns normally or
raises an exception carrying a message. -/
def Callback : Type := SensorDataProcessor.ProcessOutput → Except String Unit

namespace IoTManager

/-- The `ranges` dict local to `IoTManager.validate_sensor_data`
(`iot_manager.py` lines 148-154). -/
def ranges : List (String × (ℚ × ℚ)) :=
  [("temperature", (-50, 100)), ("humidity", (0, 100)), ("air_quality", (0, 500)),
   ("noise", (0, 200)), ("traffic", (0, 100))]

/-- Default ring-buffer capacity `self.buffer_size` (`iot_manager.py` line 32). -/
def buffer_size : Nat := 1000

/-- Initial reconnect delay `self.reconnect_delay` in seconds (line 34). -/
def reconnect_delay : Nat := 5

/-- Attempt cap `self.max_reconnect_attempts` (line 35). -/
def max_reconnect_attempts : Nat := 5

/-- Mutable pipeline state of an `IoTManager` instance: the latest-value
map `self.sensor_data`, the per-type ring buffers `self.data_buffer`,
the subscriber table `self.callbacks` and the `self.connected` flag. -/
structure State where
  sensor_data : List (String × List (String × SensorDataProcessor.ProcessOutput))
  data_buffer : List (String × List SensorDataProcessor.ProcessOutput)
  callbacks : List (String × List Callback)
  connected : Bool

/-- State built by `IoTManager.__init__` (lines 16-35). -/
def initState : State :=
  { sensor_data := [],
    data_buffer := [("temperature", []), ("humidity", []), ("air_quality", []),
      ("noise", []), ("traffic", [])],
    callbacks := [],
    connected := false }

/-- Translation of `IoTManager.validate_sensor_data` (lines 125-169):
structural checks, then the per-type range table; a type absent from
`ranges` skips the range check and validates. -/
def validate_sensor_data (data : Payload) (sensor_type : String) : Bool :=
  if ¬(hasField data "value" ∧ hasField data "unit" ∧ hasField data "location" ∧
       hasField data "timestamp") then false
  else
    match data.location with
    | none => false
    | some loc =>
      if ¬(loc.zone.isSome ∧ loc.coordinates.isSome) then false
      else
        match loc.coordinates with
        | none => false
        | some coords =>
          if ¬(coords.lat.isSome ∧ coords.lon.isSome) then false
          else
            match lookupKey sensor_type ranges with
            | none => true
            | some r =>
              match data.value with
              | none => false
              | some v => decide (r.1 ≤ v ∧ v ≤ r.2)

/-- Ring-buffer insertion of `on_message` lines 194-196: append, then
`pop(0)` when the length exceeds the capacity. -/
def bufferPush {α : Type} (cap : Nat) (buf : List α) (x : α) : List α :=
  if (buf ++ [x]).length > cap then (buf ++ [x]).drop 1 else buf ++ [x]

/-- The callback loop of `on_message` lines 204-209: every subscriber is
invoked in order inside its own try/except, so an exception is recorded
(`false`) and never stops the loop or escapes it.  Returns the per-
subscriber outcome log in invocation order. -/
def invokeCallbacks : List Callback → SensorDataProcessor.ProcessOutput → List Bool
  | [], _ => []
  | c :: rest, r =>
    (match c r with
     | Except.ok _ => true
     | Except.error _ => false) :: invokeCallbacks rest r

/-- Observable outcome of one `on_message` call: the state after the
call and the log of subscriber invocations (empty when the message was
dropped before dispatch). -/
structure MessageResult where
  state : State
  invoked : List Bool

/-- Translation of `IoTManager.on_message` (lines 171-216).
`topic_parts` is `msg.topic.split('/')` (the split itself is plain
string division and is left to the transport).  `payload` is `none` when
`json.loads` fails (`JSONDecodeError`: drop).  A topic with fewer than
two segments makes `topic_parts[-2]` raise `IndexError`, caught by the
outer handler: drop.  `now` stands for the processing wall-clock
instant. -/
def on_message (st : State) (topic_parts : List String) (payload : Option Payload)
    (now : String) : MessageResult :=
  match payload with
  | none => ⟨st, []⟩
  | some data =>
    let parts := topic_parts
    if parts.length < 2 then ⟨st, []⟩
    else
      let sensor_type := parts.getLast?.getD ""
      let sensor_id := (parts.get? (parts.length - 2)).getD ""
      if ¬validate_sensor_data data sensor_type then ⟨st, []⟩
      else
        match SensorDataProcessor.validate_sensor_data data with
        | (false, _) => ⟨st, []⟩
        | (true, _) =>
          let processed := SensorDataProcessor.process_sensor_data data now
          let buf1 :=
            match lookupKey sensor_type st.data_buffer with
            | some buf => setKey sensor_type (bufferPush buffer_size buf processed) st.data_buffer
            | none => st.data_buffer
          let sd0 :=
            if (lookupKey sensor_type st.sensor_data).isNone then
              setKey sensor_type [] st.sensor_data
            else st.sensor_data
          let inner := (lookupKey sensor_type sd0).getD []
          let sd1 := setKey sensor_type (setKey sensor_id processed inner) sd0
          let cbs := (lookupKey sensor_type st.callbacks).getD []
          ⟨{ st with data_buffer := buf1, sensor_data := sd1 }, invokeCallbacks cbs processed⟩

/-- Translation of `IoTManager.register_callback` (lines 247-255):
create the per-type list when absent, then append. -/
def register_callback (st : State) (sensor_type : String) (cb : Callback) : State :=
  let cur := (lookupKey sensor_type st.callbacks).getD []
  { st with callbacks := setKey sensor_type (cur ++ [cb]) st.callbacks }

/-- Result of `get_latest_data`: the whole latest-value map when called
without a truthy sensor type, otherwise the per-id map for one type. -/
inductive LatestResult where
  | all (m : List (String × List (String × SensorDataProcessor.ProcessOutput)))
  | one (m : List (String × SensorDataProcessor.ProcessOutput))
  deriving DecidableEq

/-- Translation of `IoTManager.get_latest_data` (lines 218-230),
including Python truthiness: `none` or an empty string falls through to
returning the whole `sensor_data` map. -/
def get_latest_data (st : State) (sensor_type : Option String) : LatestResult :=
  match sensor_type with
  | some s =>
    if s = "" then .all st.sensor_data
    else if (lookupKey s st.data_buffer).isNone then .one []
    else .one ((lookupKey s st.sensor_data).getD [])
  | none => .all st.sensor_data

/-- Translation of `IoTManager.get_buffer_data` (lines 232-245): unknown
type yields `[]`; a positive `limit` yields the last `limit` entries
(Python `data[-limit:]`); `limit` zero, negative or absent is falsy or
fails `limit > 0` and yields the whole buffer. -/
def get_buffer_data (st : State) (sensor_type : String) (limit : Option Int) :
    List SensorDataProcessor.ProcessOutput :=
  match lookupKey sensor_type st.data_buffer with
  | none => []
  | some data =>
    match limit with
    | some l => if l > 0 then data.drop (data.length - l.toNat) else data
    | none => data

/-- Translation of `IoTManager.disconnect` (lines 261-272).
`brokerRaises` is true when `loop_stop`/`client.disconnect` raises: the
`connected = False` assignment is then skipped, but the `finally` block
clears `sensor_data` and empties every buffer list either way. -/
def disconnect (st : State) (brokerRaises : Bool) : State :=
  let st1 := if brokerRaises then st else { st with connected := false }
  { st1 with sensor_data := [],
             data_buffer := st1.data_buffer.map (fun kv => (kv.1, [])) }

/-- Observable outcome of one `_try_reconnect` run: whether it returned
connected (`false` means the terminal `ConnectionError` is raised), the
final value of the `attempts` counter, and the list of `time.sleep`
delays in order. -/
structure ReconnectResult where
  connected : Bool
  attempts : Nat
  sleeps : List Nat
  deriving DecidableEq

/-- The `while` loop of `_try_reconnect` (lines 59-73), fuelled by
`maxAttempts - attempts` (the loop guard).  `outcome n` tells whether
the `client.reconnect()` call of attempt `n` succeeds.  On failure the
delay is doubled first, and the loop sleeps only when another attempt
remains. -/
def reconnectLoop (outcome : Nat → Bool) (maxAttempts : Nat) :
    Nat → Nat → Nat → ReconnectResult
  | 0, attempts, _ => ⟨false, attempts, []⟩
  | fuel + 1, attempts, delay =>
    if outcome attempts then ⟨true, attempts, []⟩
    else
      let delay2 := delay * 2
      if attempts + 1 < maxAttempts then
        let r := reconnectLoop outcome maxAttempts fuel (attempts + 1) delay2
        ⟨r.connected, r.attempts, delay2 :: r.sleeps⟩
      else ⟨false, attempts + 1, []⟩

/-- Translation of `IoTManager._try_reconnect` (lines 57-77), entered
with `attempts = 0` and the instance's current `reconnect_delay`. -/
def try_reconnect (outcome : Nat → Bool) (initialDelay maxAttempts : Nat) : ReconnectResult :=
  reconnectLoop outcome maxAttempts maxAttempts 0 initialDelay

end IoTManager

/-- A structurally complete, semantically valid temperature reading used
as concrete input by the witnesses. -/
def samplePayload : Payload :=
  { value := some 45, unit := some "°C", timestamp := some "2024-01-15T12:00:00.000000",
    sensor_id := some "centro_temperature", sensor_type := some "temperature",
    location := some
      { zone := some "Centro",
        coordinates := some { lat := some (mkRat (-5188) 1000), lon := some (mkRat (-37344) 1000) } },
    status := some "active", battery := some 85 }

/-- A subscriber that always raises and one that always succeeds. -/
def failingCallback : Callback := fun _ => Except.error "boom"

/-- The well-behaved subscriber used next to `failingCallback`. -/
def okCallback : Callback := fun _ => Except.ok ()

/-- A state holding one temperature reading in the latest-value map,
with the five standard buffer keys; used by the C9 theorems. -/
def stX : IoTManager.State :=
  { sensor_data := [("temperature",
      [("t1", SensorDataProcessor.ProcessOutput.fallback samplePayload)])],
    data_buffer := [("temperature", []), ("humidity", []), ("air_quality", []),
      ("noise", []), ("traffic", [])],
    callbacks := [],
    connected := true }

/-- A section-6-shaped payload (no sensor id or type key) used as the C1
witness input. -/
def section6Sample : Payload := { samplePayload with sensor_id := none, sensor_type := none }

/-- The sample reading re-typed as a flood reading with value `v`; used
by the C10 theorem. -/
def floodPayload (v : ℚ) : Payload :=
  { samplePayload with sensor_type := some "flood", value := some v }

/-- A fully valid noise reading located in "Zona Norte", a zone whose
`sensor_types` list does not contain "noise"; used by the C2 theorems. -/
def noisePayload : Payload :=
  { samplePayload with
    sensor_type := some "noise",
    unit := some "dB",
    location := some
      { zone := some "Zona Norte",
        coordinates := some
          { lat := some (mkRat (-5183612) 1000000),
            lon := some (mkRat (-37341157) 1000000) } } }

/-- The sample reading relocated to an arbitrary zone name `z`; used by
the C2 theorems. -/
def zonedPayload (z : String) : Payload :=
  { samplePayload with
    location := some
      { zone := some z,
        coordinates := some
          { lat := some (mkRat (-5188) 1000), lon := some (mkRat (-37344) 1000) } } }

/-! Helper lemmas shared by the claim theorems. -/

theorem lookupKey_setKey_self {β : Type} (k : String) (v : β) (l : List (String × β)) :
    lookupKey k (setKey k v l) = some v := by
  induction l with
  | nil => simp [setKey, lookupKey]
  | cons hd tl ih =>
    obtain ⟨k', v'⟩ := hd
    by_cases h : k = k' <;> simp [setKey, lookupKey, h, ih]

theorem lookupKey_mem {β : Type} {k : String} {v : β} {l : List (String × β)}
    (h : lookupKey k l = some v) : (k, v) ∈ l := by
  induction l with
  | nil => simp [lookupKey] at h
  | cons hd tl ih =>
    obtain ⟨k', v'⟩ := hd
    by_cases hk : k = k'
    · simp [lookupKey, hk] at h
      simp [hk, h]
    · simp [lookupKey, hk] at h
      exact List.mem_cons_of_mem _ (ih h)

theorem find?_eq_some_split {α : Type} {p : α → Bool} :
    ∀ {l : List α} {a : α}, l.find? p = some a →
      ∃ pre suf, l = pre ++ a :: suf ∧ p a = true ∧ ∀ b ∈ pre, p b = false := by
  intro l
  induction l with
  | nil => intro a h; simp [List.find?] at h
  | cons hd tl ih =>
    intro a h
    by_cases hp : p hd
    · rw [List.find?_cons_of_pos _ hp] at h
      obtain rfl : hd = a := by injection h
      exact ⟨[], tl, rfl, hp, by simp⟩
    · rw [List.find?_cons_of_neg _ hp] at h
      obtain ⟨pre, suf, heq, hpa, hpre⟩ := ih h
      refine ⟨hd :: pre, suf, by simp [heq], hpa, ?_⟩
      intro b hb
      rcases List.mem_cons.1 hb with rfl | hb
      · exact Bool.not_eq_true _ ▸ by simpa using hp
      · exact hpre b hb

theorem bufferFold_drop {α : Type} (cap : Nat) (xs : List α) :
    xs.foldl (IoTManager.bufferPush cap) [] = xs.drop (xs.length - cap) := by
  induction xs using List.reverseRecOn with
  | nil => simp
  | append_singleton xs x ih =>
    rw [List.foldl_append, List.foldl_cons, List.foldl_nil, ih]
    simp only [IoTManager.bufferPush]
    have hdlen : (xs.drop (xs.length - cap) ++ [x]).length = xs.length - (xs.length - cap) + 1 := by
      simp
    by_cases hlt : xs.length < cap
    · rw [if_neg (by rw [hdlen]; omega)]
      have h2 : xs.length - cap = 0 := by omega
      have h3 : (xs ++ [x]).length - cap = 0 := by simp; omega
      rw [h2, List.drop_zero, h3, List.drop_zero]
    · rw [if_pos (by rw [hdlen]; omega)]
      rcases Nat.eq_zero_or_pos cap with hc0 | hcpos
      · subst hc0
        rw [Nat.sub_zero, List.drop_length, List.nil_append]
        rw [List.drop_eq_nil_of_le (by simp), List.drop_eq_nil_of_le (by simp)]
      · have h1 : (1 : Nat) ≤ (xs.drop (xs.length - cap)).length := by
          rw [List.length_drop]; omega
      
        rw [List.drop_append_of_le_length h1, List.drop_drop,
          List.drop_append_of_le_length (by simp; omega)]
        have h4 : xs.length - cap + 1 = (xs ++ [x]).length - cap := by simp; omega
        rw [h4]

theorem bufferFold_length {α : Type} (cap : Nat) (xs : List α) :
    (xs.foldl (IoTManager.bufferPush cap) []).length = min xs.length cap := by
  rw [bufferFold_drop, List.length_drop]
  omega

/-! Claim theorems. -/

/-- C3 counterexample: with every reconnect attempt failing and the
default configuration (initial delay 5s, 5 attempts), the first sleep
between attempts lasts 10 seconds, not the 5 seconds the claim states:
the source doubles `reconnect_delay` before sleeping. -/
theorem try_reconnect_first_sleep_is_ten :
    IoTManager.try_reconnect (fun _ => false) IoTManager.reconnect_delay
        IoTManager.max_reconnect_attempts =
      { connected := false, attempts := 5, sleeps := [10, 20, 40, 80] } ∧
    ([10, 20, 40, 80].head? = some 10 ∧ (10 : Nat) ≠ 5) := by
  refine ⟨?_, rfl, by decide⟩
  simp [IoTManager.try_reconnect, IoTManager.reconnect_delay,
    IoTManager.max_reconnect_attempts, IoTManager.reconnectLoop]

/-- C3 (amended): when `connect()` fails, `_try_reconnect` retries up to
`max_reconnect_attempts = 5` times; the delay doubles before each sleep,
so with the initial value of 5 seconds the waits between consecutive
attempts are 10s, 20s, 40s and 80s (no sleep follows the final attempt),
and after exhausting all 5 attempts without success it stops retrying
and raises a terminal `ConnectionError` (result `connected = false`). -/
theorem try_reconnect_exhausts_attempts (outcome : Nat → Bool)
    (h : ∀ n, outcome n = false) :
    IoTManager.try_reconnect outcome IoTManager.reconnect_delay
        IoTManager.max_reconnect_attempts =
      { connected := false, attempts := 5, sleeps := [10, 20, 40, 80] } := by
  have h0 := h 0
  have h1 := h 1
  have h2 := h 2
  have h3 := h 3
  have h4 := h 4
  simp [IoTManager.try_reconnect, IoTManager.reconnect_delay,
    IoTManager.max_reconnect_attempts, IoTManager.reconnectLoop, h0, h1, h2, h3, h4]

/-- C3 witness: the amended theorem applied to the always-failing outcome. -/
theorem try_reconnect_exhausts_attempts_witness :
    IoTManager.try_reconnect (fun _ => false) IoTManager.reconnect_delay
        IoTManager.max_reconnect_attempts =
      { connected := false, attempts := 5, sleeps := [10, 20, 40, 80] } :=
  try_reconnect_exhausts_attempts (fun _ => false) (fun _ => rfl)

/-- C5: iterating the ring-buffer insertion of `on_message` (append then
`pop(0)` past `buffer_size`) over `buffer_size + k` readings, `k > 0`,
leaves exactly the last `buffer_size` readings in insertion order (the
`k` oldest were evicted first), the final size is exactly `buffer_size`,
and after every prefix of the insertions the length never exceeds
`buffer_size`. -/
theorem ring_buffer_fifo {α : Type} (xs : List α) (k : Nat) (hk : 0 < k)
    (hlen : xs.length = IoTManager.buffer_size + k) :
    (xs.foldl (IoTManager.bufferPush IoTManager.buffer_size) [] = xs.drop k ∧
     (xs.foldl (IoTManager.bufferPush IoTManager.buffer_size) []).length =
       IoTManager.buffer_size ∧
     ∀ n : Nat, ((xs.take n).foldl (IoTManager.bufferPush IoTManager.buffer_size) []).length ≤
       IoTManager.buffer_size) ∧
    ∀ st (parts : List String) data now buf,
      2 ≤ parts.length →
      IoTManager.validate_sensor_data data (parts.getLast?.getD "") = true →
      (SensorDataProcessor.validate_sensor_data data).1 = true →
      lookupKey (parts.getLast?.getD "") st.data_buffer = some buf →
      lookupKey (parts.getLast?.getD "")
          (IoTManager.on_message st parts (some data) now).state.data_buffer =
        some (IoTManager.bufferPush IoTManager.buffer_size buf
          (SensorDataProcessor.process_sensor_data data now)) := by
  refine ⟨⟨?_, ?_, ?_⟩, ?_⟩
  · rw [bufferFold_drop, hlen]
    have h : IoTManager.buffer_size + k - IoTManager.buffer_size = k := by omega
    rw [h]
  · rw [bufferFold_length, hlen]
    omega
  · intro n
    rw [bufferFold_length]
    omega
  · intro st parts data now buf h2 hval hproc hlkb
    have hnlt : ¬(parts.length < 2) := by omega
    rcases hveq : SensorDataProcessor.validate_sensor_data data with ⟨b, msg⟩
    rw [hveq] at hproc
    simp only at hproc
    subst hproc
    simp only [IoTManager.on_message, hnlt, hval, hveq]
    simp [hlkb, lookupKey_setKey_self]

/-- C5 witness: 1001 insertions into the capacity-1000 buffer keep the
last 1000. -/
theorem ring_buffer_fifo_witness :
    0 < 1 ∧ (List.range 1001).length = IoTManager.buffer_size + 1 ∧
    (List.range 1001).foldl (IoTManager.bufferPush IoTManager.buffer_size) [] =
      (List.range 1001).drop 1 :=
  ⟨by decide, by norm_num [IoTManager.buffer_size],
    (ring_buffer_fifo (List.range 1001) 1 (by decide)
      (by norm_num [IoTManager.buffer_size])).1.1⟩

theorem lookupKey_map_const {β γ : Type} (k : String) (l : List (String × β)) (c : γ) :
    lookupKey k (l.map (fun kv => (kv.1, c))) = (lookupKey k l).map (fun _ => c) := by
  induction l with
  | nil => simp [lookupKey]
  | cons hd tl ih =>
    obtain ⟨k', v'⟩ := hd
    by_cases h : k = k' <;> simp [lookupKey, h, ih]




/-- C7: `register_callback` appends each callback to the per-type
subscriber list, preserving insertion order and allowing multiple
subscribers per type; the dispatch loop of `on_message` produces one
outcome per registered subscriber, in registration order, each computed
from its own subscriber alone (so a raising subscriber is caught and
recorded without stopping later subscribers, and `invokeCallbacks` is a
total function — no exception propagates); and on a message that passes
both validators, `on_message` invokes exactly the subscribers registered
for the topic's sensor type on the processed reading. -/
theorem callbacks_in_order_and_isolated :
    (∀ st t cb, lookupKey t (IoTManager.register_callback st t cb).callbacks =
        some (((lookupKey t st.callbacks).getD []) ++ [cb])) ∧
    (∀ (cbs : List Callback) (r : SensorDataProcessor.ProcessOutput),
        IoTManager.invokeCallbacks cbs r =
          cbs.map (fun c =>
            match c r with
            | Except.ok _ => true
            | Except.error _ => false)) ∧
    (∀ st parts data now,
        2 ≤ (parts : List String).length →
        IoTManager.validate_sensor_data data (parts.getLast?.getD "") = true →
        (SensorDataProcessor.validate_sensor_data data).1 = true →
        (IoTManager.on_message st parts (some data) now).invoked =
          IoTManager.invokeCallbacks
            ((lookupKey (parts.getLast?.getD "") st.callbacks).getD [])
            (SensorDataProcessor.process_sensor_data data now)) := by
  refine ⟨?_, ?_, ?_⟩
  · intro st t cb
    exact lookupKey_setKey_self t _ _
  · intro cbs r
    induction cbs with
    | nil => simp [IoTManager.invokeCallbacks]
    | cons c rest ih => simp [IoTManager.invokeCallbacks, ih]
  · intro st parts data now h2 hval hproc
    have hnlt : ¬(parts.length < 2) := by omega
    rcases hveq : SensorDataProcessor.validate_sensor_data data with ⟨b, msg⟩
    rw [hveq] at hproc
    simp only at hproc
    subst hproc
    simp only [IoTManager.on_message, hnlt, hval, hveq]
    simp

/-- C7 witness: a failing and a well-behaved subscriber registered for
`temperature`, a valid message on a temperature topic. -/
theorem callbacks_in_order_and_isolated_witness :
    (IoTManager.on_message
        (IoTManager.register_callback
          (IoTManager.register_callback IoTManager.initState "temperature" failingCallback)
          "temperature" okCallback)
        ["mossoro", "sensors", "x1", "temperature"] (some samplePayload) "now").invoked =
      IoTManager.invokeCallbacks
        ((lookupKey ((["mossoro", "sensors", "x1", "temperature"] : List String).getLast?.getD "")
          (IoTManager.register_callback
            (IoTManager.register_callback IoTManager.initState "temperature" failingCallback)
            "temperature" okCallback).callbacks).getD [])
        (SensorDataProcessor.process_sensor_data samplePayload "now") := by
  have h := callbacks_in_order_and_isolated.2.2
    (IoTManager.register_callback
      (IoTManager.register_callback IoTManager.initState "temperature" failingCallback)
      "temperature" okCallback)
    ["mossoro", "sensors", "x1", "temperature"] samplePayload "now" (by decide) (by decide)
    (by decide)
  exact h


/-- C9 counterexample: the empty string is not a buffer key (hence an
unknown sensor type), yet `get_latest_data` called with it does not
return an empty mapping: Python truthiness (`if sensor_type and ...`)
makes it fall through to returning the whole, non-empty latest-value
map. -/
theorem get_latest_data_empty_string_not_empty :
    lookupKey "" stX.data_buffer = none ∧
    IoTManager.get_latest_data stX (some "") = IoTManager.LatestResult.all stX.sensor_data ∧
    stX.sensor_data ≠ [] := by
  refine ⟨by decide, rfl, by decide⟩

/-- C9 (amended): `disconnect()` clears all pipeline state — after it
returns the latest-value map is empty and every per-type ring buffer is
the empty list, even if the underlying broker disconnect call raised —
and the readers `get_latest_data` and `get_buffer_data` are total
functions that return an empty mapping or empty sequence on any query
after a disconnect, and on an unknown sensor type, provided — for
`get_latest_data` — the queried type is a non-empty string (the empty
string is falsy in Python and instead returns the whole latest-value
map). -/
theorem disconnect_clears_and_readers_degrade (st : IoTManager.State) (b : Bool)
    (t : String) (lim : Option Int) (ht : t ≠ "")
    (hunk : lookupKey t st.data_buffer = none) :
    (IoTManager.disconnect st b).sensor_data = [] ∧
    (∀ kv ∈ (IoTManager.disconnect st b).data_buffer, kv.2 = []) ∧
    (∀ s, IoTManager.get_latest_data (IoTManager.disconnect st b) s =
            IoTManager.LatestResult.one [] ∨
          IoTManager.get_latest_data (IoTManager.disconnect st b) s =
            IoTManager.LatestResult.all []) ∧
    (∀ s l, IoTManager.get_buffer_data (IoTManager.disconnect st b) s l = []) ∧
    IoTManager.get_latest_data st (some t) = IoTManager.LatestResult.one [] ∧
    IoTManager.get_buffer_data st t lim = [] := by
  have hD1 : (IoTManager.disconnect st b).sensor_data = [] := by
    cases b <;> simp [IoTManager.disconnect]
  have hD2 : (IoTManager.disconnect st b).data_buffer =
      st.data_buffer.map (fun kv => (kv.1, [])) := by
    cases b <;> simp [IoTManager.disconnect]
  refine ⟨hD1, ?_, ?_, ?_, ?_, ?_⟩
  · intro kv hkv
    rw [hD2] at hkv
    obtain ⟨a, _, rfl⟩ := List.mem_map.1 hkv
    rfl
  · intro s
    match s with
    | none => right; simp [IoTManager.get_latest_data, hD1]
    | some s =>
      by_cases hs : s = ""
      · right; simp [IoTManager.get_latest_data, hs, hD1]
      · by_cases hb : (lookupKey s (IoTManager.disconnect st b).data_buffer).isNone
        · left; simp [IoTManager.get_latest_data, hs, hb]
        · left; simp [IoTManager.get_latest_data, hs, hb, hD1, lookupKey]
  · intro s l
    rw [IoTManager.get_buffer_data, hD2, lookupKey_map_const]
    cases h : lookupKey s st.data_buffer with
    | none => simp
    | some buf =>
      rw [Option.map_some']
      cases l with
      | none => rfl
      | some n => by_cases hn : n > 0 <;> simp [hn]
  · simp [IoTManager.get_latest_data, ht, hunk]
  · rw [IoTManager.get_buffer_data, hunk]

/-- C9 witness: the amended theorem applied to the concrete state `stX`
with the unknown type `"flood"`. -/
theorem disconnect_clears_and_readers_degrade_witness :
    ("flood" : String) ≠ "" ∧ lookupKey "flood" stX.data_buffer = none ∧
    (IoTManager.disconnect stX false).sensor_data = [] ∧
    IoTManager.get_latest_data stX (some "flood") = IoTManager.LatestResult.one [] ∧
    IoTManager.get_buffer_data stX "flood" none = [] := by
  have h := disconnect_clears_and_readers_degrade stX false "flood" none
    (by decide) (by decide)
  exact ⟨by decide, by decide, h.1, h.2.2.2.2.1, h.2.2.2.2.2⟩

theorem on_message_drop_of_invalid (p : Payload)
    (hrej : (SensorDataProcessor.validate_sensor_data p).1 = false) :
    ∀ st parts now, IoTManager.on_message st parts (some p) now = ⟨st, []⟩ := by
  intro st parts now
  by_cases h2 : parts.length < 2
  · simp [IoTManager.on_message, h2]
  · by_cases hmv : IoTManager.validate_sensor_data p (parts.getLast?.getD "")
    · rcases hveq : SensorDataProcessor.validate_sensor_data p with ⟨b, msg⟩
      rw [hveq] at hrej
      simp only at hrej
      subst hrej
      simp [IoTManager.on_message, h2, hmv, hveq]
    · simp [IoTManager.on_message, h2, hmv]

/-- C1: a payload carrying exactly the section-6 message schema (value,
unit, location, timestamp, optional status/battery) but no top-level
`sensor_id` or `sensor_type` key is dropped by `on_message`:
`SensorDataProcessor.validate_sensor_data` rejects it with the missing
required field `sensor_id` (the router parses both identifiers from the
topic but never copies them into the payload), and neither the
latest-value map, nor any ring buffer, nor any registered callback is
touched. -/
theorem section6_payload_dropped (p : Payload)
    (hv : p.value.isSome) (hu : p.unit.isSome) (hts : p.timestamp.isSome)
    (hid : p.sensor_id = none) (hty : p.sensor_type = none)
    (hloc : p.location.isSome) :
    SensorDataProcessor.validate_sensor_data p =
      (false, some "Campo obrigatório ausente: sensor_id") ∧
    ∀ st parts now, (IoTManager.on_message st parts (some p) now).state = st ∧
      (IoTManager.on_message st parts (some p) now).invoked = [] := by
  have hrej : SensorDataProcessor.validate_sensor_data p =
      (false, some "Campo obrigatório ausente: sensor_id") := by
    simp [SensorDataProcessor.validate_sensor_data, VALIDATION_RULES, List.find?,
      hasField, hv, hu, hts, hid]
  refine ⟨hrej, fun st parts now => ?_⟩
  rw [on_message_drop_of_invalid p (by rw [hrej]) st parts now]
  exact ⟨rfl, rfl⟩


/-- C1 witness: the theorem applied to the concrete section-6 payload. -/
theorem section6_payload_dropped_witness :
    SensorDataProcessor.validate_sensor_data section6Sample =
      (false, some "Campo obrigatório ausente: sensor_id") ∧
    (IoTManager.on_message IoTManager.initState ["mossoro", "sensors", "x1", "temperature"]
        (some section6Sample) "now").state = IoTManager.initState := by
  have h := section6_payload_dropped section6Sample (by decide) (by decide) (by decide)
    (by decide) (by decide) (by decide)
  exact ⟨h.1, (h.2 IoTManager.initState ["mossoro", "sensors", "x1", "temperature"] "now").1⟩

/-- C6: a reading whose value lies outside its sensor type's valid range
is rejected by `SensorDataProcessor.validate_sensor_data` with the
out-of-range error (never clamped), and `on_message` then returns
without modifying the latest-value map or any ring buffer and without
invoking any registered callback. -/
theorem out_of_range_rejected (p : Payload) (t : String) (d : SensorTypeDef) (v : ℚ)
    (hu : p.unit.isSome) (hts : p.timestamp.isSome) (hid : p.sensor_id.isSome)
    (hloc : p.location.isSome)
    (hty : p.sensor_type = some t) (hlk : lookupKey t SENSOR_TYPES = some d)
    (hv : p.value = some v)
    (hout : ¬(d.valid_range.1 ≤ v ∧ v ≤ d.valid_range.2)) :
    SensorDataProcessor.validate_sensor_data p = (false, some "Valor fora do range válido") ∧
    ∀ st parts now, (IoTManager.on_message st parts (some p) now).state = st ∧
      (IoTManager.on_message st parts (some p) now).invoked = [] := by
  have hrej : SensorDataProcessor.validate_sensor_data p =
      (false, some "Valor fora do range válido") := by
    simp [SensorDataProcessor.validate_sensor_data, VALIDATION_RULES, List.find?,
      hasField, hv, hu, hts, hid, hloc, hty, hlk, hout]
  refine ⟨hrej, fun st parts now => ?_⟩
  rw [on_message_drop_of_invalid p (by rw [hrej]) st parts now]
  exact ⟨rfl, rfl⟩

/-- C6 witness: the sample temperature reading with value 500 (valid
range -50..100) applied to the theorem. -/
theorem out_of_range_rejected_witness :
    SensorDataProcessor.validate_sensor_data { samplePayload with value := some 500 } =
      (false, some "Valor fora do range válido") ∧
    (IoTManager.on_message IoTManager.initState ["mossoro", "sensors", "x1", "temperature"]
        (some { samplePayload with value := some 500 }) "now").state = IoTManager.initState := by
  have h := out_of_range_rejected { samplePayload with value := some 500 } "temperature"
    { units := "°C", valid_range := (-50, 100),
      thresholds := [("very_cold", -50, 0), ("cold", 0, 15),
        ("moderate", 15, 25), ("warm", 25, 35), ("hot", 35, 100)] } 500
    (by decide) (by decide) (by decide) (by decide) (by decide) (by decide) (by decide)
    (by decide)
  exact ⟨h.1, (h.2 IoTManager.initState ["mossoro", "sensors", "x1", "temperature"] "now").1⟩

theorem process_sensor_data_eq (p : Payload) (t : String) (d : SensorTypeDef) (v : ℚ)
    (now : String) (ht : p.sensor_type = some t) (hd : lookupKey t SENSOR_TYPES = some d)
    (hv : p.value = some v) :
    SensorDataProcessor.process_sensor_data p now =
      SensorDataProcessor.ProcessOutput.enriched
        { value := p.value, unit := d.units, timestamp := p.timestamp,
          sensor_id := p.sensor_id, sensor_type := p.sensor_type, location := p.location,
          status := p.status, battery := p.battery, processed_timestamp := now,
          status_category :=
            ((d.thresholds.find? (fun b => decide (b.2.1 ≤ v ∧ v ≤ b.2.2))).map
              Prod.fst).getD "unknown",
          trend := "stable" } := by
  simp [SensorDataProcessor.process_sensor_data, ht, hv, hd]

theorem catalog_band_names_nonempty :
    ∀ e ∈ SENSOR_TYPES, ∀ b ∈ e.2.thresholds, b.1 ≠ "" := by decide

/-- C4: for every accepted raw reading, the `status_category` attached
by `process_sensor_data` equals the name of the first Catalog threshold
band (in catalog definition order) whose closed interval contains the
reading's value, equals "unknown" when no band contains it, and is never
the empty string. -/
theorem status_category_first_band (p : Payload) (t : String) (d : SensorTypeDef) (v : ℚ)
    (now : String)
    (hacc : SensorDataProcessor.validate_sensor_data p = (true, none))
    (ht : p.sensor_type = some t) (hd : lookupKey t SENSOR_TYPES = some d)
    (hv : p.value = some v) :
    ∃ r, SensorDataProcessor.process_sensor_data p now =
        SensorDataProcessor.ProcessOutput.enriched r ∧
      ((∃ pre b suf, d.thresholds = pre ++ b :: suf ∧ (b.2.1 ≤ v ∧ v ≤ b.2.2) ∧
          (∀ b2 ∈ pre, ¬(b2.2.1 ≤ v ∧ v ≤ b2.2.2)) ∧ r.status_category = b.1) ∨
        ((∀ b2 ∈ d.thresholds, ¬(b2.2.1 ≤ v ∧ v ≤ b2.2.2)) ∧
          r.status_category = "unknown")) ∧
      r.status_category ≠ "" := by
  refine ⟨_, process_sensor_data_eq p t d v now ht hd hv, ?_, ?_⟩
  · cases hf : d.thresholds.find? (fun b => decide (b.2.1 ≤ v ∧ v ≤ b.2.2)) with
    | some b =>
      obtain ⟨pre, suf, heq, hb, hpre⟩ := find?_eq_some_split hf
      left
      refine ⟨pre, b, suf, heq, by simpa using hb, ?_, by simp [hf]⟩
      intro b2 hb2
      have := hpre b2 hb2
      simpa using this
    | none =>
      right
      refine ⟨?_, by simp [hf]⟩
      intro b2 hb2
      have := List.find?_eq_none.1 hf b2 hb2
      simpa using this
  · cases hf : d.thresholds.find? (fun b => decide (b.2.1 ≤ v ∧ v ≤ b.2.2)) with
    | some b =>
      obtain ⟨pre, suf, heq, _, _⟩ := find?_eq_some_split hf
      have hbmem : b ∈ d.thresholds := by
        rw [heq]
        exact List.mem_append_right _ (List.mem_cons_self _ _)
      have hmem : (t, d) ∈ SENSOR_TYPES := lookupKey_mem hd
      have hne : b.1 ≠ "" := catalog_band_names_nonempty (t, d) hmem b hbmem
      simp [hf, hne]
    | none => simp [hf]

/-- C4 witness: the theorem applied to the sample temperature reading
with value 45, whose first matching band is "hot". -/
theorem status_category_first_band_witness :
    SensorDataProcessor.validate_sensor_data samplePayload = (true, none) ∧
    ∃ r, SensorDataProcessor.process_sensor_data samplePayload "now" =
        SensorDataProcessor.ProcessOutput.enriched r ∧ r.status_category ≠ "" := by
  have h := status_category_first_band samplePayload "temperature"
    { units := "°C", valid_range := (-50, 100),
      thresholds := [("very_cold", -50, 0), ("cold", 0, 15),
        ("moderate", 15, 25), ("warm", 25, 35), ("hot", 35, 100)] } 45 "now"
    (by decide) (by decide) (by decide) (by decide)
  obtain ⟨r, hr, _, hne⟩ := h
  exact ⟨by decide, r, hr, hne⟩

/-- C8: for every accepted raw reading, the processed reading carries
the unit taken from the Catalog entry for its sensor type (whatever unit
the client supplied), the freshly captured processing timestamp `now`,
and the trend "stable". -/
theorem enriched_unit_timestamp_trend (p : Payload) (t : String) (d : SensorTypeDef)
    (v : ℚ) (now : String)
    (hacc : SensorDataProcessor.validate_sensor_data p = (true, none))
    (ht : p.sensor_type = some t) (hd : lookupKey t SENSOR_TYPES = some d)
    (hv : p.value = some v) :
    ∃ r, SensorDataProcessor.process_sensor_data p now =
        SensorDataProcessor.ProcessOutput.enriched r ∧
      r.unit = d.units ∧ r.trend = "stable" ∧ r.processed_timestamp = now := by
  exact ⟨_, process_sensor_data_eq p t d v now ht hd hv, rfl, rfl, rfl⟩

/-- C8 witness: the sample reading declares unit `°C` but the enriched
unit is the Catalog one. -/
theorem enriched_unit_timestamp_trend_witness :
    SensorDataProcessor.validate_sensor_data samplePayload = (true, none) ∧
    ∃ r, SensorDataProcessor.process_sensor_data samplePayload "2024-01-15T12:00:05.000000" =
        SensorDataProcessor.ProcessOutput.enriched r ∧
      r.unit = "°C" ∧ r.trend = "stable" ∧
      r.processed_timestamp = "2024-01-15T12:00:05.000000" := by
  have h := enriched_unit_timestamp_trend samplePayload "temperature"
    { units := "°C", valid_range := (-50, 100),
      thresholds := [("very_cold", -50, 0), ("cold", 0, 15),
        ("moderate", 15, 25), ("warm", 25, 35), ("hot", 35, 100)] } 45
    "2024-01-15T12:00:05.000000" (by decide) (by decide) (by decide) (by decide)
  obtain ⟨r, hr, hu, htr, hpt⟩ := h
  exact ⟨by decide, r, hr, hu, htr, hpt⟩


/-- C10: for the flood sensor type (bands normal = 0..30, attention =
31..50, ...), any value v with 30 < v < 31 lies strictly inside the
valid range 0..1000 — so validation accepts the reading — yet falls in
the gap between the integer-bounded bands, so `process_sensor_data`
assigns the status category "unknown". -/
theorem flood_gap_value_unknown (v : ℚ) (h30 : 30 < v) (h31 : v < 31) :
    SensorDataProcessor.validate_sensor_data (floodPayload v) = (true, none) ∧
    ∀ now, ∃ r, SensorDataProcessor.process_sensor_data (floodPayload v) now =
        SensorDataProcessor.ProcessOutput.enriched r ∧ r.status_category = "unknown" := by
  have hin : (0 : ℚ) ≤ v ∧ v ≤ 1000 := ⟨by linarith, by linarith⟩
  have htok : timestampOk "2024-01-15T12:00:00.000000" = true := by decide
  have hlkf : lookupKey "flood" SENSOR_TYPES = some
      { units := "mm", valid_range := (0, 1000),
        thresholds := [("normal", 0, 30), ("attention", 31, 50),
          ("alert", 51, 100), ("danger", 101, 200), ("critical", 201, 1000)] } := by decide
  have hlkz : (lookupKey "Centro" ZONES).isNone = false := by decide
  have hlat : mkRat (-52) 10 ≤ mkRat (-5188) 1000 ∧ mkRat (-5188) 1000 ≤ mkRat (-51) 10 ∧
      mkRat (-374) 10 ≤ mkRat (-37344) 1000 ∧ mkRat (-37344) 1000 ≤ mkRat (-373) 10 := by
    decide
  have hb1 : ¬((0 : ℚ) ≤ v ∧ v ≤ 30) := by
    rintro ⟨-, h⟩
    linarith
  have hb2 : ¬((31 : ℚ) ≤ v ∧ v ≤ 50) := by
    rintro ⟨h, -⟩
    linarith
  have hb3 : ¬((51 : ℚ) ≤ v ∧ v ≤ 100) := by
    rintro ⟨h, -⟩
    linarith
  have hb4 : ¬((101 : ℚ) ≤ v ∧ v ≤ 200) := by
    rintro ⟨h, -⟩
    linarith
  have hb5 : ¬((201 : ℚ) ≤ v ∧ v ≤ 1000) := by
    rintro ⟨h, -⟩
    linarith
  constructor
  · simp [SensorDataProcessor.validate_sensor_data, floodPayload, samplePayload,
      VALIDATION_RULES, hasField, hasLocationField, List.find?, hlkf, hin, htok, hlat, hlkz]
  · intro now
    refine ⟨_, process_sensor_data_eq (floodPayload v) "flood" _ v now rfl hlkf rfl, ?_⟩
    simp [List.find?, hb1, hb2, hb3, hb4, hb5]

/-- C10 witness: the theorem applied at v = 61/2 = 30.5. -/
theorem flood_gap_value_unknown_witness :
    ((30 : ℚ) < mkRat 61 2 ∧ mkRat 61 2 < 31) ∧
    SensorDataProcessor.validate_sensor_data (floodPayload (mkRat 61 2)) = (true, none) := by
  have h := flood_gap_value_unknown (mkRat 61 2) (by decide) (by decide)
  exact ⟨⟨by decide, by decide⟩, h.1⟩



/-- C2 counterexample: a noise reading in "Zona Norte" — a known zone
whose allowed sensor types do not include "noise" — is accepted by
`SensorDataProcessor.validate_sensor_data`, not rejected with
InvalidZone as the claim states: the validator checks only that the
zone name is a key of `ZONES`. -/
theorem zone_allowed_types_not_checked :
    SensorDataProcessor.validate_sensor_data noisePayload = (true, none) ∧
    ∃ zd, lookupKey "Zona Norte" ZONES = some zd ∧ "noise" ∉ zd.sensor_types := by
  refine ⟨by decide, ⟨_, rfl, by decide⟩⟩

/-- C2 (amended): the zone check of the validator only requires the
zone name to be a known `ZONES` key: a reading whose zone is unknown is
rejected with the InvalidZone error, and acceptance implies the zone is
known, but membership of the reading's sensor type in the zone's
`sensor_types` (allowedSensorTypes) is never checked — a noise reading
in "Zona Norte" (which does not allow noise) is accepted. -/
theorem invalid_zone_is_membership_only (p : Payload) (loc : Location) (z : String)
    (hacc : SensorDataProcessor.validate_sensor_data p = (true, none))
    (hl : p.location = some loc) (hz : loc.zone = some z) :
    (lookupKey z ZONES).isSome ∧
    (∀ z2, lookupKey z2 ZONES = none →
        SensorDataProcessor.validate_sensor_data (zonedPayload z2) =
          (false, some ("Zona inválida: " ++ z2))) ∧
    SensorDataProcessor.validate_sensor_data noisePayload = (true, none) ∧
    ∃ zd, lookupKey "Zona Norte" ZONES = some zd ∧ "noise" ∉ zd.sensor_types := by
  refine ⟨?_, ?_, by decide, ⟨_, rfl, by decide⟩⟩
  · unfold SensorDataProcessor.validate_sensor_data at hacc
    rw [hl] at hacc
    simp only [Option.getD_some] at hacc
    repeat' split at hacc
    all_goals simp_all [Option.isSome_iff_ne_none]
  · intro z2 h
    have htok : timestampOk "2024-01-15T12:00:00.000000" = true := by decide
    have hlkt : lookupKey "temperature" SENSOR_TYPES = some
        { units := "°C", valid_range := (-50, 100),
          thresholds := [("very_cold", -50, 0), ("cold", 0, 15),
            ("moderate", 15, 25), ("warm", 25, 35), ("hot", 35, 100)] } := by decide
    have hin : ((-50 : ℚ) ≤ 45 ∧ (45 : ℚ) ≤ 100) := by decide
    have hlat : mkRat (-52) 10 ≤ mkRat (-5188) 1000 ∧
        mkRat (-5188) 1000 ≤ mkRat (-51) 10 ∧
        mkRat (-374) 10 ≤ mkRat (-37344) 1000 ∧
        mkRat (-37344) 1000 ≤ mkRat (-373) 10 := by decide
    simp [SensorDataProcessor.validate_sensor_data, zonedPayload, samplePayload,
      VALIDATION_RULES, hasField, hasLocationField, List.find?, hlkt, hin, htok, hlat, h]

/-- C2 witness: the amended theorem applied to the accepted sample
reading located in "Centro". -/
theorem invalid_zone_is_membership_only_witness :
    SensorDataProcessor.validate_sensor_data samplePayload = (true, none) ∧
    (lookupKey "Centro" ZONES).isSome ∧
    SensorDataProcessor.validate_sensor_data (zonedPayload "Marte") =
      (false, some ("Zona inválida: " ++ "Marte")) := by
  have h := invalid_zone_is_membership_only samplePayload
    { zone := some "Centro",
      coordinates := some
        { lat := some (mkRat (-5188) 1000), lon := some (mkRat (-37344) 1000) } }
    "Centro" (by decide) (by decide) (by decide)
  exact ⟨by decide, h.1, h.2.1 "Marte" (by decide)⟩
